import Mathlib

/-!
Verification development for the salticidae connection pool
(`src/conn.cpp`) and its crypto wrappers (`include/salticidae/crypto.h`).

The C++ code is shallowly embedded as executable Lean definitions:
sequential state-transition functions over explicit pool/connection
states, with the syscall layer (send/recv/SSL) supplied as oracles.
-/

namespace Salticidae

/-- Embeds `ConnPool::Conn::ConnMode` from conn.h: ACTIVE, PASSIVE, DEAD. -/
inductive ConnMode where
  | active
  | passive
  | dead
deriving DecidableEq, Repr

/-- The lifecycle-relevant fields of a `ConnPool::Conn` object.
`self_ref` is `true` while the strong self-reference is held
(`conn->self_ref = conn`), `false` after `release_self()`.
`worker` is `none` for `nullptr`, otherwise `some b` where `b` is the
value of `worker->is_dispatcher()`.  `ev_connect` / `ev_socket` record
whether the corresponding event subscription is currently installed. -/
structure Conn where
  fd : Int
  mode : ConnMode
  self_ref : Bool
  worker : Option Bool
  ev_connect : Bool
  ev_socket : Bool
deriving DecidableEq, Repr

/-- Pool-level state, viewed from one distinguished connection `conn`.
`reg` is the set of file descriptors currently keyed in `pool` (the
`std::unordered_map<int, conn_t>` registry); the distinguished
connection's entry, when present, is keyed by its `fd`.
`teardowns`, `setups`, `closes` count the `on_teardown()`, `on_setup()`
and `::close(fd)` calls made for the distinguished connection, and
`updates` logs the second argument of each `update_conn(conn, _)` call. -/
structure PoolState where
  conn : Conn
  reg : List Int
  teardowns : Nat
  setups : Nat
  closes : Nat
  updates : List Bool
deriving DecidableEq, Repr

namespace ConnPool

/-- Embeds `ConnPool::Conn::stop()` (conn.cpp lines 238-247): when the mode is
not DEAD, unfeed from the worker, clear `ev_connect` and `ev_socket`,
unregister the send-buffer handler, and set the mode to DEAD. -/
def stop (c : Conn) : Conn :=
  if c.mode ≠ ConnMode.dead then
    { c with ev_connect := false, ev_socket := false, mode := ConnMode.dead }
  else c

/-- Embeds `ConnPool::del_conn` (conn.cpp lines 413-428): look the connection's
`fd` up in the registry; if present, erase the entry, fire
`on_teardown()`, fire `update_conn(conn, false)`, release the
self-reference, `::close(fd)` and set `fd` to `-1`; otherwise do
nothing. -/
def del_conn (s : PoolState) : PoolState :=
  if s.conn.fd ∈ s.reg then
    { s with
      reg := s.reg.erase s.conn.fd,
      teardowns := s.teardowns + 1,
      updates := s.updates ++ [false],
      conn := { s.conn with self_ref := false, fd := -1 },
      closes := s.closes + 1 }
  else s

/-- Embeds `ConnPool::Conn::worker_terminate()` (conn.cpp lines 249-259):
pin the connection via `self()` (fails when `self_ref` is released),
call `stop()`, then run `del_conn` on the dispatcher — either directly
(the worker is the dispatcher) or through `disp_tcall->async_call`;
sequentially both orders reduce to `stop` followed by `del_conn`. -/
def worker_terminate (s : PoolState) : PoolState :=
  if s.conn.self_ref then
    del_conn { s with conn := stop s.conn }
  else s

/-- Embeds `ConnPool::Conn::disp_terminate()` (conn.cpp lines 261-270):
pin the connection via `self()`; run `stop()` on the owning worker
(synchronously through its thread-call handle) when one is assigned and
it is not the dispatcher, otherwise directly; then call `del_conn`. -/
def disp_terminate (s : PoolState) : PoolState :=
  if s.conn.self_ref then
    del_conn { s with conn := stop s.conn }
  else s

/-- Embeds `ConnPool::add_conn` (conn.cpp lines 430-433):
`pool.insert(make_pair(conn->fd, conn))` — a `std::unordered_map`
insert, which leaves the map unchanged when the key is already
present. -/
def add_conn (s : PoolState) : PoolState :=
  if s.conn.fd ∈ s.reg then s else { s with reg := s.conn.fd :: s.reg }

/-- Embeds `ConnPool::_connect` (conn.cpp lines 366-411), after the socket
syscall sequence produced the fresh descriptor `fd`.  A new connection
is created with `self_ref` set, ACTIVE mode and no worker.
`connectFails` is the outcome of the non-blocking `::connect(2)` call:
`true` when it returned a negative value with `errno != EINPROGRESS`
(immediate failure: `disp_terminate`); `false` otherwise (install
`ev_connect` with the write/timeout subscription and `add_conn`). -/
def _connect (s0 : PoolState) (fd : Int) (connectFails : Bool) : PoolState :=
  let c : Conn :=
    { fd := fd, mode := ConnMode.active, self_ref := true,
      worker := none, ev_connect := false, ev_socket := false }
  let s := { s0 with conn := c }
  if connectFails then
    disp_terminate s
  else
    add_conn { s with conn := { c with ev_connect := true } }

/-- Embeds `ConnPool::Conn::conn_server` (conn.cpp lines 310-328): the
connect-attempt event fired.  Pin via `self()`.  `probeOk` is whether
the zero-byte `send(fd, "", 0, MSG_NOSIGNAL)` probe returned 0: on
success, clear `ev_connect`, select a worker (`wdisp` is its
`is_dispatcher()` value), fire `on_setup()` and `feed` (which installs
the `ev_socket` subscription); otherwise `disp_terminate`. -/
def conn_server (s : PoolState) (probeOk : Bool) (wdisp : Bool) : PoolState :=
  if s.conn.self_ref then
    if probeOk then
      { s with
        conn := { s.conn with ev_connect := false, worker := some wdisp,
                              ev_socket := true },
        setups := s.setups + 1 }
    else
      disp_terminate s
  else s

/-- Embeds `ConnPool::accept_client` (conn.cpp lines 272-308), after `accept`
and the fd option calls succeeded with client descriptor `fd`: create a
PASSIVE connection with `self_ref` set, `add_conn`, select a worker
(`wdisp` is its `is_dispatcher()` value), fire `on_setup()` and `feed`. -/
def accept_client (s0 : PoolState) (fd : Int) (wdisp : Bool) : PoolState :=
  let c : Conn :=
    { fd := fd, mode := ConnMode.passive, self_ref := true,
      worker := none, ev_connect := false, ev_socket := false }
  let s := add_conn { s0 with conn := c }
  { s with
    conn := { s.conn with worker := some wdisp, ev_socket := true },
    setups := s.setups + 1 }

end ConnPool

/-- A pool with an empty registry and no distinguished connection yet
(the placeholder connection is dead and unreferenced). -/
def initState : PoolState :=
  { conn := { fd := -1, mode := ConnMode.dead, self_ref := false,
              worker := none, ev_connect := false, ev_socket := false },
    reg := [], teardowns := 0, setups := 0, closes := 0, updates := [] }

/-- The Linux errno value `EWOULDBLOCK`/`EAGAIN`; the model only ever
compares errno against this constant, as the source does. -/
def EWOULDBLOCK : Int := 11

/-- OpenSSL `SSL_ERROR_WANT_READ`. -/
def SSL_ERROR_WANT_READ : Int := 2

/-- OpenSSL `SSL_ERROR_WANT_WRITE`. -/
def SSL_ERROR_WANT_WRITE : Int := 3

/-- Observable outcome of one invocation of the send callback
`_send_data`: the send buffer after all pops/rewinds, the `ready_send`
flag, whether `worker_terminate` was invoked, and whether the callback
reached the drained exit (`ev_socket.del(); ev_socket.add(READ)`). -/
structure SendResult where
  send_buffer : List (List Nat)
  ready_send : Bool
  terminated : Bool
  read_only_resubscribed : Bool
deriving DecidableEq, Repr

/-- The drain loop of `ConnPool::Conn::_send_data` (conn.cpp lines
62-97).  Segments are byte lists; `sends k` gives the pair (return
value, errno) of the k-th `send(2)` syscall.  Each iteration pops the
next segment (`move_pop`, the empty segment terminating the loop),
writes it, and on a short write rewinds the whole segment (`ret < 1`,
terminating on a real error `ret < 0 ∧ errno ≠ EWOULDBLOCK`) or the
unwritten suffix (`1 ≤ ret`), clearing `ready_send`. -/
def send_loop (sends : Nat → Int × Int) :
    List (List Nat) → Nat → Bool → SendResult
  | [], _, _ =>
    { send_buffer := [], ready_send := true, terminated := false,
      read_only_resubscribed := true }
  | seg :: rest, k, rs =>
    if seg.length = 0 then
      { send_buffer := rest, ready_send := true, terminated := false,
        read_only_resubscribed := true }
    else
      let ret := (sends k).1
      let err := (sends k).2
      if (seg.length : Int) - ret > 0 then
        if ret < 1 then
          if ret < 0 ∧ err ≠ EWOULDBLOCK then
            { send_buffer := seg :: rest, ready_send := rs, terminated := true,
              read_only_resubscribed := false }
          else
            { send_buffer := seg :: rest, ready_send := false,
              terminated := false, read_only_resubscribed := false }
        else
          { send_buffer := seg.drop ret.toNat :: rest, ready_send := false,
            terminated := false, read_only_resubscribed := false }
      else
        send_loop sends rest (k + 1) rs

/-- Embeds `ConnPool::Conn::_send_data` (conn.cpp lines 56-98): terminate on an
ERROR event, otherwise run the drain loop. -/
def _send_data (errorEvent : Bool) (sends : Nat → Int × Int)
    (send_buffer : List (List Nat)) (ready_send : Bool) : SendResult :=
  if errorEvent then
    { send_buffer := send_buffer, ready_send := ready_send, terminated := true,
      read_only_resubscribed := false }
  else send_loop sends send_buffer 0 ready_send

/-- Observable outcome of one invocation of a recv callback: either
`worker_terminate` was called (and `on_read` was not), or the loop
exited and `on_read` was invoked; each carries the final `recv_buffer`. -/
inductive RecvOutcome where
  | terminated (recv_buffer : List (List Nat))
  | onRead (recv_buffer : List (List Nat))
deriving DecidableEq, Repr

/-- The read loop of `ConnPool::Conn::_recv_data` (conn.cpp lines
106-132), entered with `ret = seg_buff_size` so the body runs at least
once, and iterating `while (ret == seg_buff_size)`.  `reads` lists, per
`recv(2)` syscall, (return value, errno, bytes the kernel wrote); the
segment pushed to `recv_buffer` is the returned prefix of those bytes.
`none` means the oracle list was exhausted while the loop still
demanded a read. -/
def recv_loop (sbs : Nat) :
    List (Int × Int × List Nat) → List (List Nat) → Option RecvOutcome
  | [], _ => none
  | (ret, err, data) :: rest, buf =>
    if ret < 0 then
      if err = EWOULDBLOCK then some (RecvOutcome.onRead buf)
      else some (RecvOutcome.terminated buf)
    else if ret = 0 then some (RecvOutcome.terminated buf)
    else
      if ret = (sbs : Int) then
        recv_loop sbs rest (buf ++ [data.take ret.toNat])
      else some (RecvOutcome.onRead (buf ++ [data.take ret.toNat]))

/-- Embeds `ConnPool::Conn::_recv_data` (conn.cpp lines 100-133): terminate on
an ERROR event, otherwise run the read loop and fire `on_read` when it
exits. -/
def _recv_data (errorEvent : Bool) (sbs : Nat)
    (reads : List (Int × Int × List Nat)) (buf : List (List Nat)) :
    Option RecvOutcome :=
  if errorEvent then some (RecvOutcome.terminated buf)
  else recv_loop sbs reads buf

/-- The read loop of `ConnPool::Conn::_recv_data_tls` (conn.cpp lines
186-210): identical to the plaintext loop except that a negative return
is benign when `tls->get_error(ret)` is `SSL_ERROR_WANT_READ` (the
`err` component of the oracle models `get_error`). -/
def recv_loop_tls (sbs : Nat) :
    List (Int × Int × List Nat) → List (List Nat) → Option RecvOutcome
  | [], _ => none
  | (ret, err, data) :: rest, buf =>
    if ret < 0 then
      if err = SSL_ERROR_WANT_READ then some (RecvOutcome.onRead buf)
      else some (RecvOutcome.terminated buf)
    else if ret = 0 then some (RecvOutcome.terminated buf)
    else
      if ret = (sbs : Int) then
        recv_loop_tls sbs rest (buf ++ [data.take ret.toNat])
      else some (RecvOutcome.onRead (buf ++ [data.take ret.toNat]))

/-- Embeds `ConnPool::Conn::_recv_data_tls` (conn.cpp lines 180-212). -/
def _recv_data_tls (errorEvent : Bool) (sbs : Nat)
    (reads : List (Int × Int × List Nat)) (buf : List (List Nat)) :
    Option RecvOutcome :=
  if errorEvent then some (RecvOutcome.terminated buf)
  else recv_loop_tls sbs reads buf

/-- Which send/recv callback pair is currently installed on the
connection: the TLS handshake pair, the TLS data pair
(`_send_data_tls`/`_recv_data_tls`), or the plaintext pair
(`_send_data`/`_recv_data`). -/
inductive DataFunc where
  | handshakeFunc
  | tlsDataFunc
  | plainDataFunc
deriving DecidableEq, Repr

/-- The `ev_socket` subscription state: cleared, readable only,
writable only, or both. -/
inductive EvSub where
  | cleared
  | readOnly
  | writeOnly
  | readWrite
deriving DecidableEq, Repr

/-- The TLS-lifecycle-relevant fields of a connection: whether TLS was
enabled at creation, the installed callback pair, the captured peer
certificate (an abstract identifier), the event subscription,
`ready_send`, and the log of `update_conn(conn, _)` second arguments. -/
structure TlsConn where
  tlsEnabled : Bool
  dataFunc : DataFunc
  peer_cert : Option Nat
  evSub : EvSub
  ready_send : Bool
  updates : List Bool
deriving DecidableEq, Repr

/-- Embeds `TLS::do_handshake(int &want_io_type)` (crypto.h lines 300-311):
`ret` is the `SSL_do_handshake` return value and `err` the
`SSL_get_error` classification.  Returns `ok none` when the handshake
completed (`ret == 1`), `ok (some w)` with `want_io_type` `w` (1 for
WANT_WRITE, 0 for WANT_READ), and `error` for the thrown
`SalticidaeError` on any other condition. -/
def do_handshake (ret err : Int) : Except Unit (Option Int) :=
  if ret = 1 then Except.ok none
  else if err = SSL_ERROR_WANT_WRITE then Except.ok (some 1)
  else if err = SSL_ERROR_WANT_READ then Except.ok (some 0)
  else Except.error ()

/-- Embeds `ConnPool::Conn::_send_data_tls_handshake` (conn.cpp lines
214-230): step the handshake; on completion swap `send_data_func` and
`recv_data_func` to the TLS data callbacks, capture the peer
certificate (`cert` abstracts `tls->get_peer_cert()`), and call
`update_conn(conn, true)`; otherwise `ev_socket.del()` then
`ev_socket.add(ret == 0 ? READ : WRITE)`. -/
def _send_data_tls_handshake (hsRet hsErr : Int) (cert : Nat)
    (c : TlsConn) : Except Unit TlsConn :=
  match do_handshake hsRet hsErr with
  | Except.ok none =>
      Except.ok { c with dataFunc := DataFunc.tlsDataFunc,
                         peer_cert := some cert,
                         updates := c.updates ++ [true] }
  | Except.ok (some w) =>
      Except.ok { c with evSub := if w = 0 then EvSub.readOnly
                                  else EvSub.writeOnly }
  | Except.error e => Except.error e

/-- Embeds `ConnPool::Conn::_recv_data_tls_handshake` (conn.cpp lines
232-235): set `ready_send = true`, then delegate to the send-side
handshake step. -/
def _recv_data_tls_handshake (hsRet hsErr : Int) (cert : Nat)
    (c : TlsConn) : Except Unit TlsConn :=
  _send_data_tls_handshake hsRet hsErr cert { c with ready_send := true }

/-- Modelled from the spec: the initial callback installation for a new
connection lives in conn.h (`Worker::feed`, not under src/).  Per the
spec (§4.C), a TLS-enabled connection starts in the Handshaking phase
with the handshake callbacks installed and no peer certificate; a
plaintext connection starts Established with the plaintext data
callbacks. -/
def initTlsConn (enabled : Bool) : TlsConn :=
  { tlsEnabled := enabled,
    dataFunc := if enabled then DataFunc.handshakeFunc
                else DataFunc.plainDataFunc,
    peer_cert := none,
    evSub := EvSub.readWrite,
    ready_send := false,
    updates := [] }

/-- One observable operation on a connection after creation: a socket
readiness event (dispatched to whichever callback pair is installed),
or the termination path (`stop`/`del_conn`). -/
inductive TlsOp where
  | fdEvent (recvSide : Bool) (hsRet hsErr : Int) (cert : Nat)
            (sub : EvSub) (rdy : Bool)
  | termEvent
deriving DecidableEq, Repr

/-- Dispatch of one operation.  In the handshake phase a readiness
event runs `_recv_data_tls_handshake` or `_send_data_tls_handshake`.
In the established phases the data callbacks (`_send_data(_tls)`,
`_recv_data(_tls)`) may change the event subscription and `ready_send`
in any way (abstracted by the `sub`, `rdy` parameters of the event) but
never mention `peer_cert`, `send_data_func`/`recv_data_func` or the TLS
flag; `stop`/`del_conn` clear subscriptions and likewise never mention
`peer_cert`. -/
def tlsStep (c : TlsConn) : TlsOp → Except Unit TlsConn
  | TlsOp.fdEvent recvSide hsRet hsErr cert sub rdy =>
    match c.dataFunc with
    | DataFunc.handshakeFunc =>
        if recvSide then _recv_data_tls_handshake hsRet hsErr cert c
        else _send_data_tls_handshake hsRet hsErr cert c
    | _ => Except.ok { c with evSub := sub, ready_send := rdy }
  | TlsOp.termEvent => Except.ok { c with evSub := EvSub.cleared }

/-- Run a list of operations from a given connection state, stopping at
the first thrown error. -/
def runTls (c : TlsConn) : List TlsOp → Except Unit TlsConn
  | [] => Except.ok c
  | op :: ops =>
    match tlsStep c op with
    | Except.ok c2 => runTls c2 ops
    | Except.error e => Except.error e

/-- Embeds `std::vector::resize` on a `bytearray_t`: truncate to `n` elements
or pad with zero bytes up to `n`. -/
def bytearray_resize (md : List Nat) (n : Nat) : List Nat :=
  md.take n ++ List.replicate (n - md.length) 0

/-- Embeds `SHA1_Final(&*md.begin(), &ctx)` as called by `SHA1::_digest`
(crypto.h lines 102-105): overwrite the first bytes of `md` with the
digest `h` of all data fed by `update`, leaving the rest of `md` in
place.  `h` abstracts the SHA-1 output, a 20-byte string. -/
def sha1_final (h md : List Nat) : List Nat :=
  h ++ md.drop h.length

namespace SHA1

/-- Embeds `SHA1::digest(bytearray_t &md)` (crypto.h lines 107-110):
`md.resize(32)` followed by `_digest(md)`. -/
def digest_into (h md : List Nat) : List Nat :=
  sha1_final h (bytearray_resize md 32)

/-- Embeds `bytearray_t SHA1::digest()` (crypto.h lines 112-116):
`bytearray_t md(32)` (32 zero bytes) followed by `_digest(md)`. -/
def digest (h : List Nat) : List Nat :=
  sha1_final h (List.replicate 32 0)

end SHA1

theorem stop_fd_eq (c : Conn) : (ConnPool.stop c).fd = c.fd := by
  unfold ConnPool.stop; split <;> rfl

theorem stop_self_ref_eq (c : Conn) : (ConnPool.stop c).self_ref = c.self_ref := by
  unfold ConnPool.stop; split <;> rfl

theorem stop_mode_dead (c : Conn) : (ConnPool.stop c).mode = ConnMode.dead := by
  unfold ConnPool.stop
  split
  · rfl
  · next h => simpa using h

/-- Helper: `del_conn` on a state whose distinguished connection is registered:
the explicit result. -/
theorem del_conn_of_mem (s : PoolState) (hreg : s.conn.fd ∈ s.reg) :
    ConnPool.del_conn s =
      { s with
        reg := s.reg.erase s.conn.fd,
        teardowns := s.teardowns + 1,
        updates := s.updates ++ [false],
        conn := { s.conn with self_ref := false, fd := -1 },
        closes := s.closes + 1 } := by
  unfold ConnPool.del_conn
  exact if_pos hreg

/-- Helper: `del_conn` on a state whose distinguished connection is not
registered is a no-op. -/
theorem del_conn_of_not_mem (s : PoolState) (hreg : s.conn.fd ∉ s.reg) :
    ConnPool.del_conn s = s := by
  unfold ConnPool.del_conn
  exact if_neg hreg

/-- Claim C1: The claim is false on the code: when the non-blocking
`::connect(2)` call fails immediately (errno other than EINPROGRESS),
`_connect` calls `disp_terminate` on a connection that was never passed
to `add_conn`, so `del_conn` does not find its fd in the registry and
`on_teardown` never fires.  On a fresh pool, the immediate-failure path
ends with zero `on_teardown` calls, not one. -/
theorem connect_immediate_failure_no_teardown :
    (ConnPool._connect initState 7 true).teardowns = 0 ∧
    ¬ (ConnPool._connect initState 7 true).teardowns = 1 := by
  decide

/-- Claim C1, amended: An asynchronous connect failure (timeout or
refusal reported to `conn_server`, whose zero-byte probe fails) fires
`on_teardown` exactly once: the count rises by one and any further
`disp_terminate` is a no-op.  An immediate `::connect` failure fires
`on_teardown` zero times, because the connection was never registered. -/
theorem connect_failure_teardown (s : PoolState) (fd : Int) (wdisp : Bool)
    (hfd : fd ∉ s.reg) :
    (ConnPool._connect s fd true).teardowns = s.teardowns ∧
    (ConnPool.conn_server (ConnPool._connect s fd false) false wdisp).teardowns
      = s.teardowns + 1 ∧
    ConnPool.disp_terminate
        (ConnPool.conn_server (ConnPool._connect s fd false) false wdisp)
      = ConnPool.conn_server (ConnPool._connect s fd false) false wdisp := by
  refine ⟨?_, ?_, ?_⟩
  · simp only [ConnPool._connect, ConnPool.disp_terminate, if_true]
    rw [del_conn_of_not_mem]
    · simpa [ConnPool.stop] using hfd
  · simp only [ConnPool._connect, ConnPool.add_conn, ConnPool.conn_server,
      ConnPool.disp_terminate, if_neg hfd]
    simp only [if_true, if_false, Bool.false_eq_true, ite_false]
    rw [del_conn_of_mem]
    simp [ConnPool.stop]
  · simp only [ConnPool._connect, ConnPool.add_conn, ConnPool.conn_server,
      ConnPool.disp_terminate, if_neg hfd]
    simp only [if_true, if_false, Bool.false_eq_true, ite_false]
    rw [del_conn_of_mem]
    · simp [ConnPool.disp_terminate, ConnPool.stop]
    · simp [ConnPool.stop]

theorem connect_failure_teardown_witness :
    (7 : Int) ∉ initState.reg ∧
    ((ConnPool._connect initState 7 true).teardowns = initState.teardowns ∧
     (ConnPool.conn_server (ConnPool._connect initState 7 false) false false).teardowns
       = initState.teardowns + 1 ∧
     ConnPool.disp_terminate
         (ConnPool.conn_server (ConnPool._connect initState 7 false) false false)
       = ConnPool.conn_server (ConnPool._connect initState 7 false) false false) :=
  ⟨by decide, connect_failure_teardown initState 7 false (by decide)⟩

/-- Claim C2: The claim is false on the code: `stop()` is one of the
listed operations, and after `stop()` on a freshly accepted connection
the mode is DEAD while `self_ref` is still held and `fd` is still the
socket descriptor, so `mode = Dead ⇔ (self_ref released ∧ fd = -1)`
fails. -/
theorem stop_breaks_dead_equiv :
    (ConnPool.stop (ConnPool.accept_client initState 5 false).conn).mode
      = ConnMode.dead ∧
    ¬ ((ConnPool.stop (ConnPool.accept_client initState 5 false).conn).self_ref
          = false ∧
       (ConnPool.stop (ConnPool.accept_client initState 5 false).conn).fd = -1) := by
  decide

/-- Claim C2, amended: After a complete termination
(`worker_terminate` or `disp_terminate`) of a live registered
connection, all three hold: mode = Dead, `self_ref` released, and
`fd = -1`.  `stop` alone sets mode = Dead but leaves `self_ref` and
`fd` unchanged, so the claimed equivalence holds after the full
termination operations but not after `stop` by itself. -/
theorem termination_dead_state (s : PoolState)
    (hreg : s.conn.fd ∈ s.reg) (href : s.conn.self_ref = true) :
    ((ConnPool.disp_terminate s).conn.mode = ConnMode.dead ∧
     (ConnPool.disp_terminate s).conn.self_ref = false ∧
     (ConnPool.disp_terminate s).conn.fd = -1) ∧
    ((ConnPool.worker_terminate s).conn.mode = ConnMode.dead ∧
     (ConnPool.worker_terminate s).conn.self_ref = false ∧
     (ConnPool.worker_terminate s).conn.fd = -1) ∧
    ((ConnPool.stop s.conn).mode = ConnMode.dead ∧
     (ConnPool.stop s.conn).self_ref = s.conn.self_ref ∧
     (ConnPool.stop s.conn).fd = s.conn.fd) := by
  have hmem : (ConnPool.stop s.conn).fd ∈ s.reg := by
    rw [stop_fd_eq]; exact hreg
  have h2 := del_conn_of_mem { s with conn := ConnPool.stop s.conn } hmem
  constructor
  · unfold ConnPool.disp_terminate
    rw [if_pos href, h2]
    exact ⟨stop_mode_dead _, rfl, rfl⟩
  constructor
  · unfold ConnPool.worker_terminate
    rw [if_pos href, h2]
    exact ⟨stop_mode_dead _, rfl, rfl⟩
  · exact ⟨stop_mode_dead _, stop_self_ref_eq _, stop_fd_eq _⟩

theorem termination_dead_state_witness :
    (ConnPool.accept_client initState 5 false).conn.fd
      ∈ (ConnPool.accept_client initState 5 false).reg ∧
    (ConnPool.accept_client initState 5 false).conn.self_ref = true ∧
    (((ConnPool.disp_terminate (ConnPool.accept_client initState 5 false)).conn.mode
        = ConnMode.dead ∧
      (ConnPool.disp_terminate (ConnPool.accept_client initState 5 false)).conn.self_ref
        = false ∧
      (ConnPool.disp_terminate (ConnPool.accept_client initState 5 false)).conn.fd
        = -1) ∧
     ((ConnPool.worker_terminate (ConnPool.accept_client initState 5 false)).conn.mode
        = ConnMode.dead ∧
      (ConnPool.worker_terminate (ConnPool.accept_client initState 5 false)).conn.self_ref
        = false ∧
      (ConnPool.worker_terminate (ConnPool.accept_client initState 5 false)).conn.fd
        = -1) ∧
     ((ConnPool.stop (ConnPool.accept_client initState 5 false).conn).mode
        = ConnMode.dead ∧
      (ConnPool.stop (ConnPool.accept_client initState 5 false).conn).self_ref
        = (ConnPool.accept_client initState 5 false).conn.self_ref ∧
      (ConnPool.stop (ConnPool.accept_client initState 5 false).conn).fd
        = (ConnPool.accept_client initState 5 false).conn.fd)) :=
  ⟨by decide, by decide,
   termination_dead_state (ConnPool.accept_client initState 5 false)
     (by decide) (by decide)⟩

/-- Claim C3: `del_conn` is idempotent: on a registered connection the
first call fires one `on_teardown`, one `::close(fd)` and shrinks the
registry by exactly one; the second call finds `fd = -1` absent from
the registry and leaves the whole pool state unchanged.  Likewise the
double-termination `worker_terminate` then `disp_terminate` yields
exactly one `on_teardown`, one close, and a registry one entry
smaller. -/
theorem del_conn_idempotent (s : PoolState)
    (hreg : s.conn.fd ∈ s.reg) (hneg : (-1 : Int) ∉ s.reg)
    (href : s.conn.self_ref = true) :
    ConnPool.del_conn (ConnPool.del_conn s) = ConnPool.del_conn s ∧
    (ConnPool.del_conn s).teardowns = s.teardowns + 1 ∧
    (ConnPool.del_conn s).closes = s.closes + 1 ∧
    (ConnPool.del_conn s).reg.length + 1 = s.reg.length ∧
    (ConnPool.disp_terminate (ConnPool.worker_terminate s)).teardowns
      = s.teardowns + 1 ∧
    (ConnPool.disp_terminate (ConnPool.worker_terminate s)).closes
      = s.closes + 1 ∧
    (ConnPool.disp_terminate (ConnPool.worker_terminate s)).reg.length + 1
      = s.reg.length := by
  have herase : ((-1 : Int)) ∉ s.reg.erase s.conn.fd :=
    fun h => hneg ((List.erase_sublist _ _).subset h)
  have hlen : (s.reg.erase s.conn.fd).length + 1 = s.reg.length := by
    rw [List.length_erase_of_mem hreg]
    have := List.length_pos.mpr (List.ne_nil_of_mem hreg)
    omega
  have h1 := del_conn_of_mem s hreg
  have hmem : (ConnPool.stop s.conn).fd ∈ s.reg := by
    rw [stop_fd_eq]; exact hreg
  have h2 :=
    del_conn_of_mem { s with conn := ConnPool.stop s.conn } hmem
  refine ⟨?_, ?_, ?_, ?_, ?_, ?_, ?_⟩
  · rw [h1, del_conn_of_not_mem]
    exact herase
  · rw [h1]
  · rw [h1]
  · rw [h1]; exact hlen
  · unfold ConnPool.worker_terminate
    rw [if_pos href, h2, ConnPool.disp_terminate, if_neg (by simp)]
  · unfold ConnPool.worker_terminate
    rw [if_pos href, h2, ConnPool.disp_terminate, if_neg (by simp)]
  · unfold ConnPool.worker_terminate
    rw [if_pos href, h2, ConnPool.disp_terminate, if_neg (by simp)]
    simpa [stop_fd_eq] using hlen

theorem del_conn_idempotent_witness :
    (ConnPool.accept_client initState 5 false).conn.fd
      ∈ (ConnPool.accept_client initState 5 false).reg ∧
    (-1 : Int) ∉ (ConnPool.accept_client initState 5 false).reg ∧
    (ConnPool.accept_client initState 5 false).conn.self_ref = true ∧
    (ConnPool.del_conn (ConnPool.del_conn (ConnPool.accept_client initState 5 false))
        = ConnPool.del_conn (ConnPool.accept_client initState 5 false) ∧
     (ConnPool.del_conn (ConnPool.accept_client initState 5 false)).teardowns
        = (ConnPool.accept_client initState 5 false).teardowns + 1 ∧
     (ConnPool.del_conn (ConnPool.accept_client initState 5 false)).closes
        = (ConnPool.accept_client initState 5 false).closes + 1 ∧
     (ConnPool.del_conn (ConnPool.accept_client initState 5 false)).reg.length + 1
        = (ConnPool.accept_client initState 5 false).reg.length ∧
     (ConnPool.disp_terminate
         (ConnPool.worker_terminate (ConnPool.accept_client initState 5 false))).teardowns
        = (ConnPool.accept_client initState 5 false).teardowns + 1 ∧
     (ConnPool.disp_terminate
         (ConnPool.worker_terminate (ConnPool.accept_client initState 5 false))).closes
        = (ConnPool.accept_client initState 5 false).closes + 1 ∧
     (ConnPool.disp_terminate
         (ConnPool.worker_terminate (ConnPool.accept_client initState 5 false))).reg.length + 1
        = (ConnPool.accept_client initState 5 false).reg.length) :=
  ⟨by decide, by decide, by decide,
   del_conn_idempotent (ConnPool.accept_client initState 5 false)
     (by decide) (by decide) (by decide)⟩

/-- Claim C4: In `_send_data`, when the segment popped from the send
buffer has `N` bytes and the `send` syscall reports `n` bytes written
with `1 ≤ n < N`, exactly the unwritten suffix of `N - n` bytes is
rewound to the front of the send buffer, `ready_send` is set to false,
the connection is not terminated, and the next send call pops exactly
those remaining `N - n` bytes first. -/
theorem partial_send_rewinds_suffix (sends : Nat → Int × Int)
    (seg : List Nat) (rest : List (List Nat)) (rs : Bool) (n e : Int)
    (h1 : 1 ≤ n) (h2 : n < (seg.length : Int)) (hs : sends 0 = (n, e)) :
    (_send_data false sends (seg :: rest) rs).send_buffer
      = seg.drop n.toNat :: rest ∧
    (seg.drop n.toNat).length = seg.length - n.toNat ∧
    (_send_data false sends (seg :: rest) rs).ready_send = false ∧
    (_send_data false sends (seg :: rest) rs).terminated = false ∧
    (_send_data false sends (seg :: rest) rs).send_buffer.head?
      = some (seg.drop n.toNat) := by
  have hne : ¬ seg.length = 0 := by omega
  have hgt : (seg.length : Int) - n > 0 := by omega
  have hnlt : ¬ n < 1 := by omega
  simp [_send_data, send_loop, hne, hs, hgt, hnlt]

theorem partial_send_rewinds_suffix_witness :
    ((1 : Int) ≤ 1 ∧ (1 : Int) < (([3, 4, 5] : List Nat).length : Int) ∧
     (fun _ : Nat => ((1 : Int), (0 : Int))) 0 = (1, 0)) ∧
    ((_send_data false (fun _ => (1, 0)) [[3, 4, 5]] true).send_buffer
       = ([3, 4, 5] : List Nat).drop (1 : Int).toNat :: [] ∧
     (([3, 4, 5] : List Nat).drop (1 : Int).toNat).length
       = ([3, 4, 5] : List Nat).length - (1 : Int).toNat ∧
     (_send_data false (fun _ => (1, 0)) [[3, 4, 5]] true).ready_send = false ∧
     (_send_data false (fun _ => (1, 0)) [[3, 4, 5]] true).terminated = false ∧
     (_send_data false (fun _ => (1, 0)) [[3, 4, 5]] true).send_buffer.head?
       = some (([3, 4, 5] : List Nat).drop (1 : Int).toNat)) :=
  ⟨⟨by decide, by decide, rfl⟩,
   partial_send_rewinds_suffix (fun _ => (1, 0)) [3, 4, 5] [] true 1 0
     (by decide) (by decide) rfl⟩

/-- Claim C6: In `_send_data`, whenever the `send` syscall returns
exactly 0 for a non-empty segment, the whole segment is rewound to the
front of the send buffer, `ready_send` is set to false, and the
callback returns without terminating the connection — regardless of the
value of errno, because the fatal branch additionally requires
`ret < 0`. -/
theorem send_zero_benign (sends : Nat → Int × Int)
    (seg : List Nat) (rest : List (List Nat)) (rs : Bool) (e : Int)
    (hne : seg ≠ []) (hs : sends 0 = (0, e)) :
    (_send_data false sends (seg :: rest) rs).send_buffer = seg :: rest ∧
    (_send_data false sends (seg :: rest) rs).ready_send = false ∧
    (_send_data false sends (seg :: rest) rs).terminated = false := by
  have hlen : ¬ seg.length = 0 := by
    simpa [List.length_eq_zero] using hne
  have hpos : 0 < seg.length := Nat.pos_of_ne_zero hlen
  have hgt : (seg.length : Int) - 0 > 0 := by omega
  simp [_send_data, send_loop, hlen, hs, hgt, hpos]

theorem send_zero_benign_witness :
    (([9] : List Nat) ≠ [] ∧
     (fun _ : Nat => ((0 : Int), (99 : Int))) 0 = (0, 99)) ∧
    ((_send_data false (fun _ => (0, 99)) [[9]] true).send_buffer = [[9]] ∧
     (_send_data false (fun _ => (0, 99)) [[9]] true).ready_send = false ∧
     (_send_data false (fun _ => (0, 99)) [[9]] true).terminated = false) :=
  ⟨⟨by decide, rfl⟩,
   send_zero_benign (fun _ => (0, 99)) [9] [] true 99 (by decide) rfl⟩

/-- Claim C5: One step of the receive loop, plaintext and TLS: the loop
iterates again exactly when the previous read returned `seg_buff_size`
(for positive reads); a read returning 0 triggers worker-terminate
without invoking `on_read`; a negative return classified as benign
(`EWOULDBLOCK`, resp. `SSL_ERROR_WANT_READ`) stops the loop and reaches
`on_read`; any other negative return triggers worker-terminate. -/
theorem recv_loop_cases (sbs : Nat) (r e : Int) (d : List Nat)
    (rest : List (Int × Int × List Nat)) (buf : List (List Nat)) :
    (0 < r → r = (sbs : Int) →
      recv_loop sbs ((r, e, d) :: rest) buf
        = recv_loop sbs rest (buf ++ [d.take r.toNat]) ∧
      recv_loop_tls sbs ((r, e, d) :: rest) buf
        = recv_loop_tls sbs rest (buf ++ [d.take r.toNat])) ∧
    (0 < r → r ≠ (sbs : Int) →
      recv_loop sbs ((r, e, d) :: rest) buf
        = some (RecvOutcome.onRead (buf ++ [d.take r.toNat])) ∧
      recv_loop_tls sbs ((r, e, d) :: rest) buf
        = some (RecvOutcome.onRead (buf ++ [d.take r.toNat]))) ∧
    (r = 0 →
      recv_loop sbs ((r, e, d) :: rest) buf
        = some (RecvOutcome.terminated buf) ∧
      recv_loop_tls sbs ((r, e, d) :: rest) buf
        = some (RecvOutcome.terminated buf)) ∧
    (r < 0 → e = EWOULDBLOCK →
      recv_loop sbs ((r, e, d) :: rest) buf
        = some (RecvOutcome.onRead buf)) ∧
    (r < 0 → e ≠ EWOULDBLOCK →
      recv_loop sbs ((r, e, d) :: rest) buf
        = some (RecvOutcome.terminated buf)) ∧
    (r < 0 → e = SSL_ERROR_WANT_READ →
      recv_loop_tls sbs ((r, e, d) :: rest) buf
        = some (RecvOutcome.onRead buf)) ∧
    (r < 0 → e ≠ SSL_ERROR_WANT_READ →
      recv_loop_tls sbs ((r, e, d) :: rest) buf
        = some (RecvOutcome.terminated buf)) := by
  refine ⟨?_, ?_, ?_, ?_, ?_, ?_, ?_⟩
  · intro hr hsbs
    have h1 : ¬ r < 0 := by omega
    have h2 : ¬ r = 0 := by omega
    have h3 : ¬ sbs = 0 := by omega
    have h4 : ¬ ((sbs : Int) < 0) := by omega
    simp [recv_loop, recv_loop_tls, h1, h2, h3, h4, hsbs]
  · intro hr hsbs
    have h1 : ¬ r < 0 := by omega
    have h2 : ¬ r = 0 := by omega
    simp [recv_loop, recv_loop_tls, h1, h2, hsbs]
  · intro hr
    have h1 : ¬ r < 0 := by omega
    simp [recv_loop, recv_loop_tls, h1, hr]
  · intro hr he
    simp [recv_loop, hr, he]
  · intro hr he
    simp [recv_loop, hr, he]
  · intro hr he
    simp [recv_loop_tls, hr, he]
  · intro hr he
    simp [recv_loop_tls, hr, he]

theorem recv_loop_cases_witness :
    ((0 : Int) < 4 ∧ (4 : Int) = ((4 : Nat) : Int)) ∧
    (recv_loop 4 [((4 : Int), (0 : Int), ([1, 2, 3, 4] : List Nat))] []
       = recv_loop 4 [] ([] ++ [([1, 2, 3, 4] : List Nat).take (4 : Int).toNat]) ∧
     recv_loop_tls 4 [((4 : Int), (0 : Int), ([1, 2, 3, 4] : List Nat))] []
       = recv_loop_tls 4 []
           ([] ++ [([1, 2, 3, 4] : List Nat).take (4 : Int).toNat])) :=
  ⟨⟨by decide, by decide⟩,
   (recv_loop_cases 4 4 0 [1, 2, 3, 4] [] []).1 (by decide) (by decide)⟩

/-- Claim C10: Both receive callbacks fire `on_read` on every call that
does not worker-terminate, including calls where zero bytes were read:
when the very first read reports would-block (`EWOULDBLOCK`, resp.
`SSL_ERROR_WANT_READ`), the loop breaks and `on_read` is invoked with
the receive buffer exactly as it was — the higher layer observes
`on_read` with no new data. -/
theorem recv_wouldblock_still_onread (sbs : Nat) (r e : Int) (d : List Nat)
    (rest : List (Int × Int × List Nat)) (buf : List (List Nat))
    (hr : r < 0) :
    (e = EWOULDBLOCK →
      _recv_data false sbs ((r, e, d) :: rest) buf
        = some (RecvOutcome.onRead buf)) ∧
    (e = SSL_ERROR_WANT_READ →
      _recv_data_tls false sbs ((r, e, d) :: rest) buf
        = some (RecvOutcome.onRead buf)) := by
  constructor
  · intro he
    simp [_recv_data, recv_loop, hr, he]
  · intro he
    simp [_recv_data_tls, recv_loop_tls, hr, he]

theorem recv_wouldblock_still_onread_witness :
    ((-1 : Int) < 0 ∧ EWOULDBLOCK = EWOULDBLOCK) ∧
    _recv_data false 4 [((-1 : Int), EWOULDBLOCK, ([] : List Nat))] [[7]]
      = some (RecvOutcome.onRead [[7]]) :=
  ⟨⟨by decide, rfl⟩,
   (recv_wouldblock_still_onread 4 (-1) EWOULDBLOCK [] [] [[7]]
      (by decide)).1 rfl⟩

/-- Claim C7: Each readiness event in the TLS handshake phase performs
one `do_handshake` step; when it yields WantRead, `ev_socket.del()`
removes all socket subscriptions and only readable is re-added; when it
yields WantWrite, only writable is re-added; hence two consecutive
steps yielding WantWrite then WantRead re-arm on the opposite direction
each step. -/
theorem handshake_rearm_opposite (c : TlsConn) (r1 r2 : Int) (k1 k2 : Nat)
    (h1 : r1 ≠ 1) (h2 : r2 ≠ 1) :
    _send_data_tls_handshake r1 SSL_ERROR_WANT_READ k1 c
      = Except.ok { c with evSub := EvSub.readOnly } ∧
    _send_data_tls_handshake r1 SSL_ERROR_WANT_WRITE k1 c
      = Except.ok { c with evSub := EvSub.writeOnly } ∧
    _send_data_tls_handshake r2 SSL_ERROR_WANT_READ k2
        { c with evSub := EvSub.writeOnly }
      = Except.ok { c with evSub := EvSub.readOnly } := by
  refine ⟨?_, ?_, ?_⟩ <;>
    simp [_send_data_tls_handshake, do_handshake, h1, h2,
      SSL_ERROR_WANT_READ, SSL_ERROR_WANT_WRITE]

theorem handshake_rearm_opposite_witness :
    ((-1 : Int) ≠ 1 ∧ (-1 : Int) ≠ 1) ∧
    (_send_data_tls_handshake (-1) SSL_ERROR_WANT_READ 0 (initTlsConn true)
       = Except.ok { initTlsConn true with evSub := EvSub.readOnly } ∧
     _send_data_tls_handshake (-1) SSL_ERROR_WANT_WRITE 0 (initTlsConn true)
       = Except.ok { initTlsConn true with evSub := EvSub.writeOnly } ∧
     _send_data_tls_handshake (-1) SSL_ERROR_WANT_READ 0
         { initTlsConn true with evSub := EvSub.writeOnly }
       = Except.ok { initTlsConn true with evSub := EvSub.readOnly }) :=
  ⟨⟨by decide, by decide⟩,
   handshake_rearm_opposite (initTlsConn true) (-1) (-1) 0 0
     (by decide) (by decide)⟩

/-- Helper: a successful `_send_data_tls_handshake` step either
completed the handshake — swapping the data callbacks and capturing the
certificate — or only re-armed the event subscription, leaving
callbacks and certificate untouched; `tlsEnabled` is preserved either
way. -/
theorem send_hs_cases (hsRet hsErr : Int) (cert : Nat) (cb c1 : TlsConn)
    (hstep : _send_data_tls_handshake hsRet hsErr cert cb = Except.ok c1) :
    (c1.dataFunc = DataFunc.tlsDataFunc ∧ c1.peer_cert = some cert ∧
     c1.tlsEnabled = cb.tlsEnabled) ∨
    (c1.dataFunc = cb.dataFunc ∧ c1.peer_cert = cb.peer_cert ∧
     c1.tlsEnabled = cb.tlsEnabled) := by
  unfold _send_data_tls_handshake at hstep
  cases hdo : do_handshake hsRet hsErr with
  | error e =>
    rw [hdo] at hstep
    simp at hstep
  | ok w =>
    rw [hdo] at hstep
    cases w with
    | none =>
      simp only [Except.ok.injEq] at hstep
      subst hstep
      left; exact ⟨rfl, rfl, rfl⟩
    | some v =>
      simp only [Except.ok.injEq] at hstep
      subst hstep
      right; exact ⟨rfl, rfl, rfl⟩

/-- Helper: one `tlsStep` preserves the TLS lifecycle invariant — the
peer certificate is populated exactly when TLS is enabled and the data
callbacks have been swapped to the TLS pair — keeps `tlsEnabled`
unchanged, and never overwrites an already-populated certificate. -/
theorem tlsStep_inv (c c1 : TlsConn) (op : TlsOp)
    (hstep : tlsStep c op = Except.ok c1)
    (hinv : (c.peer_cert.isSome
               ↔ (c.tlsEnabled = true ∧ c.dataFunc = DataFunc.tlsDataFunc)) ∧
            (c.tlsEnabled = false → c.dataFunc = DataFunc.plainDataFunc)) :
    ((c1.peer_cert.isSome
        ↔ (c1.tlsEnabled = true ∧ c1.dataFunc = DataFunc.tlsDataFunc)) ∧
     (c1.tlsEnabled = false → c1.dataFunc = DataFunc.plainDataFunc)) ∧
    (∀ x, c.peer_cert = some x → c1.peer_cert = some x) ∧
    c1.tlsEnabled = c.tlsEnabled := by
  cases op with
  | termEvent =>
    simp only [tlsStep] at hstep
    cases hstep
    exact ⟨hinv, fun x h => h, rfl⟩
  | fdEvent recvSide hsRet hsErr cert sub rdy =>
    cases hd : c.dataFunc with
    | handshakeFunc =>
      have hcert : c.peer_cert = none := by
        cases hc : c.peer_cert with
        | none => rfl
        | some x =>
          exact absurd (hinv.1.mp (by simp [hc])).2 (by simp [hd])
      have htls : c.tlsEnabled = true := by
        cases he : c.tlsEnabled
        · exact absurd (hinv.2 he) (by simp [hd])
        · rfl
      have hstep2 : ∃ cb : TlsConn, cb.dataFunc = DataFunc.handshakeFunc ∧
          cb.peer_cert = none ∧ cb.tlsEnabled = true ∧
          _send_data_tls_handshake hsRet hsErr cert cb = Except.ok c1 := by
        cases recvSide with
        | false =>
          exact ⟨c, hd, hcert, htls, by simpa [tlsStep, hd] using hstep⟩
        | true =>
          refine ⟨{ c with ready_send := true }, hd, hcert, htls, ?_⟩
          simpa [tlsStep, hd, _recv_data_tls_handshake] using hstep
      obtain ⟨cb, hbd, hbc, hbt, hb⟩ := hstep2
      rcases send_hs_cases hsRet hsErr cert cb c1 hb with
        ⟨hf, hp, ht⟩ | ⟨hf, hp, ht⟩
      · refine ⟨⟨?_, ?_⟩, ?_, ?_⟩
        · simp [hp, hf, ht, hbt]
        · intro he; simp [ht, hbt] at he
        · intro x hx; simp [hcert] at hx
        · rw [ht, hbt, htls]
      · refine ⟨⟨?_, ?_⟩, ?_, ?_⟩
        · simp [hp, hbc, hf, hbd]
        · intro he; simp [ht, hbt] at he
        · intro x hx; simp [hcert] at hx
        · rw [ht, hbt, htls]
    | tlsDataFunc =>
      simp only [tlsStep, hd] at hstep
      cases hstep
      refine ⟨⟨?_, ?_⟩, fun x h => h, rfl⟩
      · simpa [hd] using hinv.1
      · intro he
        exact absurd (hinv.2 he) (by simp [hd])
    | plainDataFunc =>
      simp only [tlsStep, hd] at hstep
      cases hstep
      refine ⟨⟨?_, ?_⟩, fun x h => h, rfl⟩
      · simpa [hd] using hinv.1
      · intro _; exact rfl

/-- Helper: `runTls` preserves the TLS lifecycle invariant along any
sequence of operations and never overwrites a populated certificate. -/
theorem runTls_inv (ops : List TlsOp) (c c2 : TlsConn)
    (hrun : runTls c ops = Except.ok c2)
    (hinv : (c.peer_cert.isSome
               ↔ (c.tlsEnabled = true ∧ c.dataFunc = DataFunc.tlsDataFunc)) ∧
            (c.tlsEnabled = false → c.dataFunc = DataFunc.plainDataFunc)) :
    ((c2.peer_cert.isSome
        ↔ (c2.tlsEnabled = true ∧ c2.dataFunc = DataFunc.tlsDataFunc)) ∧
     (c2.tlsEnabled = false → c2.dataFunc = DataFunc.plainDataFunc)) ∧
    (∀ x, c.peer_cert = some x → c2.peer_cert = some x) ∧
    c2.tlsEnabled = c.tlsEnabled := by
  induction ops generalizing c with
  | nil =>
    simp only [runTls] at hrun
    cases hrun
    exact ⟨hinv, fun x h => h, rfl⟩
  | cons op ops ih =>
    simp only [runTls] at hrun
    cases hstep : tlsStep c op with
    | error e => rw [hstep] at hrun; cases hrun
    | ok c1 =>
      rw [hstep] at hrun
      obtain ⟨hinv1, hkeep1, henb1⟩ := tlsStep_inv c c1 op hstep hinv
      obtain ⟨hinv2, hkeep2, henb2⟩ := ih c1 hrun hinv1
      exact ⟨hinv2, fun x h => hkeep2 x (hkeep1 x h), henb2.trans henb1⟩

/-- Claim C8: Along any sequence of operations from a freshly created
connection, `peer_cert` is populated exactly when TLS is enabled and
the handshake completed (the data callbacks were swapped to the TLS
pair); once populated it is never modified by any later operation; and
at the completion step (`SSL_do_handshake` returning 1) the data
callbacks are swapped to the TLS data callbacks, the peer certificate
is captured, and `update_conn(conn, true)` is invoked. -/
theorem peer_cert_iff_tls_done (enabled : Bool) (ops : List TlsOp)
    (c2 : TlsConn) (hrun : runTls (initTlsConn enabled) ops = Except.ok c2) :
    (c2.peer_cert.isSome
       ↔ (c2.tlsEnabled = true ∧ c2.dataFunc = DataFunc.tlsDataFunc)) ∧
    c2.tlsEnabled = enabled ∧
    (∀ ops2 c3 x, c2.peer_cert = some x → runTls c2 ops2 = Except.ok c3 →
       c3.peer_cert = some x) ∧
    (∀ (e : Int) (cert : Nat) (c : TlsConn),
       _send_data_tls_handshake 1 e cert c
         = Except.ok { c with dataFunc := DataFunc.tlsDataFunc,
                              peer_cert := some cert,
                              updates := c.updates ++ [true] }) := by
  have hinit : ((initTlsConn enabled).peer_cert.isSome
        ↔ ((initTlsConn enabled).tlsEnabled = true ∧
           (initTlsConn enabled).dataFunc = DataFunc.tlsDataFunc)) ∧
      ((initTlsConn enabled).tlsEnabled = false →
        (initTlsConn enabled).dataFunc = DataFunc.plainDataFunc) := by
    cases enabled <;> simp [initTlsConn]
  obtain ⟨hinv2, _, henb⟩ := runTls_inv ops (initTlsConn enabled) c2 hrun hinit
  refine ⟨hinv2.1, by simpa [initTlsConn] using henb, ?_, ?_⟩
  · intro ops2 c3 x hx hrun2
    exact (runTls_inv ops2 c2 c3 hrun2 hinv2).2.1 x hx
  · intro e cert c
    simp [_send_data_tls_handshake, do_handshake]

theorem peer_cert_iff_tls_done_witness :
    runTls (initTlsConn true) [TlsOp.fdEvent false 1 0 42 EvSub.cleared false]
      = Except.ok { tlsEnabled := true, dataFunc := DataFunc.tlsDataFunc,
                    peer_cert := some 42, evSub := EvSub.readWrite,
                    ready_send := false, updates := [true] } ∧
    (({ tlsEnabled := true, dataFunc := DataFunc.tlsDataFunc,
        peer_cert := some 42, evSub := EvSub.readWrite,
        ready_send := false, updates := [true] } : TlsConn).peer_cert.isSome
      ↔ (({ tlsEnabled := true, dataFunc := DataFunc.tlsDataFunc,
            peer_cert := some 42, evSub := EvSub.readWrite,
            ready_send := false, updates := [true] } : TlsConn).tlsEnabled = true ∧
         ({ tlsEnabled := true, dataFunc := DataFunc.tlsDataFunc,
            peer_cert := some 42, evSub := EvSub.readWrite,
            ready_send := false, updates := [true] } : TlsConn).dataFunc
           = DataFunc.tlsDataFunc)) :=
  ⟨by rfl,
   (peer_cert_iff_tls_done true [TlsOp.fdEvent false 1 0 42 EvSub.cleared false]
      { tlsEnabled := true, dataFunc := DataFunc.tlsDataFunc,
        peer_cert := some 42, evSub := EvSub.readWrite,
        ready_send := false, updates := [true] } (by rfl)).1⟩

/-- Helper: `std::vector::resize(n)` yields a vector of length `n`. -/
theorem bytearray_resize_length (md : List Nat) (n : Nat) :
    (bytearray_resize md n).length = n := by
  simp [bytearray_resize]
  omega

/-- Claim C9: The SHA-1 wrapper sizes its digest output buffer to 32
bytes rather than SHA-1's 20: for any accumulated update data (whose
20-byte SHA-1 digest is `h`), both `digest(md)` and `digest()` produce
a byte array of length 32. -/
theorem sha1_digest_length_32 (h md : List Nat) (hlen : h.length = 20) :
    (SHA1.digest_into h md).length = 32 ∧ (SHA1.digest h).length = 32 := by
  have hr : (bytearray_resize md 32).length = 32 := bytearray_resize_length md 32
  constructor
  · simp [SHA1.digest_into, sha1_final, hlen, hr]
  · simp [SHA1.digest, sha1_final, hlen]

theorem sha1_digest_length_32_witness :
    (List.replicate 20 (0 : Nat)).length = 20 ∧
    ((SHA1.digest_into (List.replicate 20 (0 : Nat)) [1, 2, 3]).length = 32 ∧
     (SHA1.digest (List.replicate 20 (0 : Nat))).length = 32) :=
  ⟨by decide,
   sha1_digest_length_32 (List.replicate 20 0) [1, 2, 3] (by decide)⟩

end Salticidae
